import Mathlib

/-!
Verification of the SmartSan-NYC analytics core against its sources.

The development shallowly embeds the complaint classifier and priority
inference of `src/routes/data_refresh.py` (lines 88-191) and the prediction
engine of `src/services/predictions.py` (hotspots, tonnage forecast,
complaint-type seasonality, overflow risk, borough forecast).  Database
aggregation results are taken as inputs: each embedded operation consumes the
row lists that the Mongo pipelines would produce, exactly as the Python code
consumes them.  Python `float` arithmetic is modelled by exact rationals
(`ℚ`); Python `int(x)` is truncation toward zero and Python `round(x, k)`
is round-half-to-even, both embedded explicitly below.  The square root used
once for a standard deviation (`variance ** 0.5`) is irrational in general,
so the borough predictor is parametrised by the square-root map `sqrtFn`;
every property proved about it holds for an arbitrary such map.
-/

/-! ## Python string primitives on `List Char`

`complaint_type.strip()`, `.lower()`, `.upper()` and the substring test
`needle in hay` from `data_refresh.py`, modelled character-by-character
(the data handled by the service is ASCII, where `Char.toLower` and
`Char.toUpper` agree with Python).  -/

/-- Python `s.lower()` on a list of characters. -/
def lowerChars (s : List Char) : List Char := s.map Char.toLower

/-- Python `s.strip()`: remove leading and trailing whitespace. -/
def stripChars (s : List Char) : List Char :=
  ((s.dropWhile Char.isWhitespace).reverse.dropWhile Char.isWhitespace).reverse

/-- Does `hay` start with `needle`? (auxiliary for the substring test). -/
def startsWithChars : List Char → List Char → Bool
  | [], _ => true
  | _ :: _, [] => false
  | c :: cs, h :: hs => c == h && startsWithChars cs hs

/-- Python `needle in hay` substring containment. -/
def containsChars (needle : List Char) : List Char → Bool
  | [] => needle.isEmpty
  | h :: t => startsWithChars needle (h :: t) || containsChars needle t

/-- Python `kw in hay` for a string-literal keyword `kw`. -/
def strIn (needle : String) (hay : List Char) : Bool :=
  containsChars needle.data hay

/-- Python `any(word in hay for word in words)`. -/
def anyIn (words : List String) (hay : List Char) : Bool :=
  words.any fun w => strIn w hay

/-- Python `s.upper()` on a string. -/
def pyUpper (s : String) : String := String.mk (s.data.map Char.toUpper)

/-! ## Complaint categories and the record classifier

`src/routes/data_refresh.py`, lines 88-182: the fixed category enumeration
and the ordered if/elif keyword chain assigning `request_type`. -/

/-- The fixed complaint-category enumeration (values of `request_type`). -/
inductive Category where
  | unsanitary_condition
  | air_quality
  | dirty_condition
  | water_quality
  | missed_pickup
  | hazardous_materials
  | sweeping
  | mosquitoes
  | mold
  | snow
  | trash_issue
  | overflow
  | rodent
  | illegal_dumping
  | litter_basket
  | damaged_container
  | vendor_enforcement
  | obstruction
  | graffiti
  | other
  deriving DecidableEq

/-- All categories, the codomain of classification. -/
def allCategories : List Category :=
  [.unsanitary_condition, .air_quality, .dirty_condition, .water_quality,
   .missed_pickup, .hazardous_materials, .sweeping, .mosquitoes, .mold, .snow,
   .trash_issue, .overflow, .rodent, .illegal_dumping, .litter_basket,
   .damaged_container, .vendor_enforcement, .obstruction, .graffiti, .other]

/-- The classifier chain of `data_refresh.py` lines 96-182, operating on the
preprocessed strings: `complaint_lower` (stripped and lowercased
`complaint_type`), `descriptor` (lowercased) and `combined`
(`f"{complaint_lower} {descriptor}".lower()`). -/
def classifyFrom (complaint_lower descriptor combined : List Char) : Category :=
  if strIn "unsanitary pigeon condition" combined || strIn "unsanitary animal facility" combined then .unsanitary_condition
  else if strIn "air quality" combined then .air_quality
  else if strIn "unsanitary condition" combined || strIn "dirty conditions" combined then .dirty_condition
  else if strIn "sewer" combined || strIn "water quality" combined then .water_quality
  else if strIn "missed collection" combined || strIn "missed collection (all materials)" combined then .missed_pickup
  else if strIn "hazardous materials" combined || strIn "lead" combined then .hazardous_materials
  else if strIn "sweeping" combined && (strIn "inadequate" combined || strIn "missed" combined) then .sweeping
  else if strIn "mosquitoes" combined then .mosquitoes
  else if strIn "mold" combined then .mold
  else if strIn "snow" combined then .snow
  else if strIn "residential disposal complaint" complaint_lower then
    (if anyIn ["not secure", "not separated", "bin not used", "too early", "too late", "left in front"] descriptor then .trash_issue
     else if strIn "storage area" descriptor then .other
     else .trash_issue)
  else if strIn "dumpster complaint" complaint_lower then
    (if strIn "overflowing" descriptor then .overflow else .trash_issue)
  else if strIn "dead animal" complaint_lower then
    (if anyIn ["rat", "mouse", "rodent"] descriptor then .rodent else .other)
  else if strIn "street sweeping complaint" complaint_lower then .sweeping
  else if strIn "sanitation worker" complaint_lower || strIn "vehicle complaint" complaint_lower then .other
  else if strIn "derelict vehicle" complaint_lower then .other
  else if strIn "illegal posting" complaint_lower then .other
  else if anyIn ["illegal dumping", "dumping", "illegal dump", "dumped", "chronic dumping"] combined then .illegal_dumping
  else if anyIn ["missed collection", "missed pickup", "missed trash", "collection missed", "pickup missed", "no pickup"] combined then .missed_pickup
  else if anyIn ["overflow", "overflowing", "over flowing", "bin full", "container full", "overflowing dumpster", "overflowing basket"] combined then .overflow
  else if anyIn ["rodent", "rat", "rats", "mouse", "mice", "rodent activity", "rodent sighting"] combined then .rodent
  else if anyIn ["dirty condition", "sanitation condition", "unsanitary", "dirty area", "filthy", "unsanitary condition"] combined then .dirty_condition
  else if anyIn ["trash", "garbage", "refuse", "waste", "debris", "rubbish", "solid waste", "not secure", "not separated"] combined then .trash_issue
  else if anyIn ["litter basket", "litter", "basket", "litter bin", "street basket", "replacement basket", "new basket"] combined then .litter_basket
  else if anyIn ["damaged container", "broken container", "container damaged", "damaged bin", "broken bin"] combined then .damaged_container
  else if anyIn ["vendor", "enforcement", "street vendor", "vendor violation", "food vendor", "non-food vendor"] combined then .vendor_enforcement
  else if anyIn ["obstruction", "blocking", "blocked", "obstructing", "access blocked"] combined then .obstruction
  else if anyIn ["graffiti", "vandalism", "spray paint"] combined then .graffiti
  else if anyIn ["street condition", "sidewalk"] combined && anyIn ["trash", "garbage", "debris", "litter"] combined then .trash_issue
  else .other

/-- `classify(complaint_type, descriptor)`: the preprocessing of
`data_refresh.py` lines 89-92 followed by the keyword chain.  `combined` is
`f"{complaint_lower} {descriptor}"` lowercased once more, as in the source. -/
def classify (complaint_type descriptor : String) : Category :=
  classifyFrom (lowerChars (stripChars complaint_type.data)) (lowerChars descriptor.data)
    (lowerChars (lowerChars (stripChars complaint_type.data) ++ ' ' :: lowerChars descriptor.data))

/-- Priority levels assigned at ingestion. -/
inductive Priority where
  | low
  | normal
  | high
  | urgent
  deriving DecidableEq

/-- The high-severity categories of `data_refresh.py` line 187. -/
def highCategories : List Category :=
  [.illegal_dumping, .rodent, .overflow, .hazardous_materials, .mold, .air_quality, .water_quality]

/-- Priority inference of `data_refresh.py` lines 184-191: start from
`normal`, upgrade to `high` for high-severity categories, then overwrite
with `urgent` when `'urgent' in complaint_lower or 'emergency' in descriptor`. -/
def inferPriority (request_type : Category) (complaint_type descriptor : String) : Priority :=
  let complaint_lower := lowerChars (stripChars complaint_type.data)
  let descriptorLower := lowerChars descriptor.data
  let priority := Priority.normal
  let priority := if request_type ∈ highCategories then Priority.high else priority
  if strIn "urgent" complaint_lower || strIn "emergency" descriptorLower then Priority.urgent else priority

/-! ## Python numeric primitives on `ℚ` -/

/-- Python `int(x)`: truncation toward zero. -/
def pyInt (q : ℚ) : ℤ := if q < 0 then ⌈q⌉ else ⌊q⌋

/-- Python `round(x)` to an integer: round half to even (banker's rounding). -/
def pyRoundInt (q : ℚ) : ℤ :=
  if q - ⌊q⌋ < 1/2 then ⌊q⌋
  else if 1/2 < q - ⌊q⌋ then ⌊q⌋ + 1
  else if ⌊q⌋ % 2 = 0 then ⌊q⌋ else ⌊q⌋ + 1

/-- Python `round(x, 1)`. -/
def round1 (q : ℚ) : ℚ := (pyRoundInt (q * 10) : ℚ) / 10

/-- Python `round(x, 2)`. -/
def round2 (q : ℚ) : ℚ := (pyRoundInt (q * 100) : ℚ) / 100

/-! ## Hotspot prediction

`src/services/predictions.py`, `predict_hotspots` (lines 89-124).  The
aggregation pipeline rows (grid cells with `total_requests`, `days_active`
and `avg_priority`) are the input. -/

/-- One row of the hotspot aggregation pipeline. -/
structure HotspotPattern where
  total_requests : ℕ
  days_active : ℕ
  avg_priority : ℚ
  deriving DecidableEq

/-- One prediction record produced by `predict_hotspots`. -/
structure HotspotPrediction where
  predicted_requests : ℤ
  confidence : ℚ
  historical_avg_priority : ℚ
  days_ahead : ℕ
  deriving DecidableEq

/-- Line 97: `confidence = min(100, (pattern['days_active'] / 13) * 100)`. -/
def hotspotConfidence (days_active : ℕ) : ℚ :=
  min 100 ((days_active : ℚ) / 13 * 100)

/-- Lines 116-120: the general (non-category) seasonal factor keyed by the
current month: winter (Dec-Feb) 1.1, summer (Jun-Aug) 1.15, else 1.0. -/
def hotspotSeasonalFactor (current_month : ℕ) : ℚ :=
  if current_month ∈ [12, 1, 2] then 11/10
  else if current_month ∈ [6, 7, 8] then 23/20
  else 1

/-- `predict_hotspots`: per pattern, `int((total_requests / 90) * days_ahead)`
requests, confidence rounded to one decimal, and the seasonal pass
`int(predicted_requests * seasonal_factor)` (lines 94-122).  The final
`sorted(...)` only reorders the records and is omitted. -/
def predictHotspots (patterns : List HotspotPattern) (days_ahead current_month : ℕ) :
    List HotspotPrediction :=
  patterns.map fun p =>
    { predicted_requests :=
        pyInt ((pyInt ((p.total_requests : ℚ) / 90 * days_ahead) : ℚ) *
          hotspotSeasonalFactor current_month),
      confidence := round1 (hotspotConfidence p.days_active),
      historical_avg_priority := round2 p.avg_priority,
      days_ahead := days_ahead }

/-! ## Tonnage forecast

`src/services/predictions.py`, `predict_tonnage_forecast` (lines 141-196).
The input is `daily_totals`: the per-waste-type tonnage lists grouped from
the completed collections; an empty group dict arises exactly when the
collection query returned nothing, which the source reports as the distinct
`'Insufficient historical data'` outcome (modelled as `none`). -/

/-- Per-waste-type entry of the forecast. -/
structure WasteTypePrediction where
  waste_type : String
  predicted_tonnage : ℚ
  avg_daily_tonnage : ℚ
  historical_samples : ℕ
  deriving DecidableEq

/-- The forecast record of `predict_tonnage_forecast`. -/
structure TonnageForecast where
  predictions : List WasteTypePrediction
  total_predicted_tonnage : ℚ
  confidence : ℚ
  deriving DecidableEq

/-- `predict_tonnage_forecast` (lines 153-196): per nonempty waste type,
`predicted = avg_daily * days_ahead`; the total is rounded at the end;
line 193: `confidence = min(100, (total_samples / (60 * len(daily_totals))) * 100)`. -/
def predictTonnageForecast (daily_totals : List (String × List ℚ)) (days_ahead : ℕ) :
    Option TonnageForecast :=
  match daily_totals with
  | [] => none
  | d :: ds =>
    let groups := (d :: ds).filter fun wt => !wt.2.isEmpty
    some
      { predictions := groups.map fun wt =>
          { waste_type := wt.1,
            predicted_tonnage := round2 (wt.2.sum / (wt.2.length : ℚ) * (days_ahead : ℚ)),
            avg_daily_tonnage := round2 (wt.2.sum / (wt.2.length : ℚ)),
            historical_samples := wt.2.length },
        total_predicted_tonnage :=
          round2 ((groups.map fun wt => wt.2.sum / (wt.2.length : ℚ) * (days_ahead : ℚ)).sum),
        confidence :=
          min 100 ((((groups.map fun wt => wt.2.length).sum : ℕ) : ℚ) /
            (60 * ((d :: ds).length : ℚ)) * 100) }

/-! ## Complaint-type seasonality

`src/services/predictions.py`, `predict_complaint_types` (lines 309-357). -/

/-- Line 310-317: the static seasonal pattern table,
`complaint_type -> (peak_months, factor)`. -/
def seasonal_patterns : List (String × (List ℕ × ℚ)) :=
  [("snow", ([12, 1, 2], 3)),
   ("mosquitoes", ([6, 7, 8], 5/2)),
   ("mold", ([3, 4, 5], 2)),
   ("air_quality", ([6, 7, 8], 9/5)),
   ("overflow", ([11, 12], 3/2)),
   ("rodent", ([9, 10, 11], 13/10))]

/-- Lines 331-338: factor 1.0 unless the complaint type has a pattern; then
the peak factor if the target month is a peak month, the peak factor times
0.8 if the current month is a peak month, else 1.0. -/
def categorySeasonalFactor (complaint_type : String) (target_month current_month : ℕ) : ℚ :=
  match seasonal_patterns.find? (fun p => p.1 == complaint_type) with
  | some (_, peaks, factor) =>
      if target_month ∈ peaks then factor
      else if current_month ∈ peaks then factor * (4/5)
      else 1
  | none => 1

/-- Line 357: `confidence = min(100, (data['total'] / 100) * 100)` of
`predict_complaint_types`, as a function of the type's yearly total. -/
def complaintTypeConfidence (total : ℕ) : ℚ :=
  min 100 ((total : ℚ) / 100 * 100)

/-! ## Overflow risk scoring

`src/services/predictions.py`, `predict_overflow_risk` (lines 436-450). -/

/-- Line 438: `overflow_score = min(100, overflow_count * 10)`. -/
def overflowScore (overflow_count_90d : ℕ) : ℤ :=
  min 100 ((overflow_count_90d : ℤ) * 10)

/-- Line 439: `collection_score = max(0, 50 - recent_collections * 5)`. -/
def collectionScore (recent_collections_7d : ℕ) : ℤ :=
  max 0 (50 - (recent_collections_7d : ℤ) * 5)

/-- Line 440: `risk_score = min(100, overflow_score + collection_score)`. -/
def riskScore (overflow_count_90d recent_collections_7d : ℕ) : ℤ :=
  min 100 (overflowScore overflow_count_90d + collectionScore recent_collections_7d)

/-- Line 448: the risk level label. -/
def riskLevel (score : ℤ) : String :=
  if 70 < score then "high" else if 40 < score then "medium" else "low"

/-- Line 449: the fixed recommendation attached to each level. -/
def riskRecommendation (score : ℤ) : String :=
  if 70 < score then "Increase collection frequency"
  else if 40 < score then "Monitor closely"
  else "Normal operations"

/-! ## Borough complaint forecast

`src/services/predictions.py`, `predict_borough_complaints` (lines 458-741).
The input is `borough_data`: per borough, the chronologically ordered list of
daily complaint counts produced by the date aggregation (counts are numbers;
we keep them in `ℚ` as all further arithmetic is rational). -/

/-- Python `counts[-k:]` for `k ≥ 1`, and `counts[-0:] = counts` only arises
here with `counts = []`, where both sides are `[]`: the last `k` elements. -/
def lastN (k : ℕ) (l : List ℚ) : List ℚ := l.drop (l.length - k)

/-- `sum(l) / len(l) if l else 0` (lines 606, 609, 649). -/
def listMean (l : List ℚ) : ℚ :=
  match l with
  | [] => 0
  | _ :: _ => l.sum / (l.length : ℚ)

/-- `sum(x_values)` for `x_values = list(range(n))` (line 621). -/
def sumX (n : ℕ) : ℚ := ((List.range n).map fun i : ℕ => (i : ℚ)).sum

/-- `sum(x * x for x in x_values)` (line 624). -/
def sumX2 (n : ℕ) : ℚ := ((List.range n).map fun i : ℕ => (i : ℚ) * (i : ℚ)).sum

/-- `sum(x * y for x, y in zip(x_values, trend_counts))` (line 623). -/
def sumXY (ys : List ℚ) : ℚ :=
  (((List.range ys.length).zip ys).map fun p => (p.1 : ℚ) * p.2).sum

/-- Lines 613-633: the simple linear-regression slope over the last
`min(60, len(counts))` counts; `0` when fewer than two points or the
denominator `n*Σx² - (Σx)²` vanishes. -/
def trendSlope (counts : List ℚ) : ℚ :=
  if 1 < (lastN 60 counts).length then
    (if ((lastN 60 counts).length : ℚ) * sumX2 (lastN 60 counts).length -
          sumX (lastN 60 counts).length * sumX (lastN 60 counts).length ≠ 0 then
        (((lastN 60 counts).length : ℚ) * sumXY (lastN 60 counts) -
            sumX (lastN 60 counts).length * (lastN 60 counts).sum) /
          (((lastN 60 counts).length : ℚ) * sumX2 (lastN 60 counts).length -
            sumX (lastN 60 counts).length * sumX (lastN 60 counts).length)
      else 0)
  else 0

/-- The trend summary computed per borough (lines 602-633). -/
structure TrendEstimate where
  recent_avg : ℚ
  historical_avg : ℚ
  slope : ℚ
  deriving DecidableEq

/-- `recent_avg` over the last `min(30, len)` counts (lines 604-606),
`overall_avg` over all counts (line 609), and the regression slope. -/
def estimateTrend (counts : List ℚ) : TrendEstimate :=
  { recent_avg := listMean (lastN 30 counts),
    historical_avg := listMean counts,
    slope := trendSlope counts }

/-- Lines 651-666: the bounded daily rate.  The trend adjustment
`slope * (days_ahead / 2)` is floored at `-recent_avg * 0.5`, and the
resulting daily rate is floored at `recent_avg * 0.1`. -/
def boundedDailyRate (recent_avg slope : ℚ) (days_ahead : ℕ) : ℚ :=
  max (recent_avg * (1/10)) (recent_avg + max (-recent_avg * (1/2)) (slope * ((days_ahead : ℚ) / 2)))

/-- Lines 669-672: `predicted_total = max(0, int(predicted_daily * days_ahead))`. -/
def predictedTotal (recent_avg slope : ℚ) (days_ahead : ℕ) : ℤ :=
  max 0 (pyInt (boundedDailyRate recent_avg slope days_ahead * (days_ahead : ℚ)))

/-- Lines 681-688: the base confidence from the number of data points. -/
def baseConfidence (data_points : ℕ) : ℚ :=
  if 30 ≤ data_points then 85
  else if 14 ≤ data_points then 70
  else if 7 ≤ data_points then 50
  else 30

/-- Lines 690-700: the confidence of a borough forecast from the number of
data points, the standard deviation and the overall mean.  The source
computes `std_dev = variance ** 0.5`; that value enters here as `std_dev`. -/
def boroughConfidence (data_points : ℕ) (std_dev overall_avg : ℚ) : ℚ :=
  max 30 (min 95
    (if 0 < std_dev ∧ 0 < overall_avg then
      (if 1/2 < std_dev / overall_avg then
        baseConfidence data_points *
          (1 - min (3/10) ((std_dev / overall_avg - 1/2) * (1/2)))
      else baseConfidence data_points)
    else baseConfidence data_points))

/-- Lines 703-707: the trend direction label. -/
def trendDirection (slope : ℚ) : String :=
  if 1/10 < slope then "increasing"
  else if slope < -(1/10) then "decreasing"
  else "stable"

/-- One output record of `predict_borough_complaints` (lines 715-729; the
date strings and the constant `days_ahead` echo are omitted). -/
structure BoroughPrediction where
  borough : String
  predicted_complaints : ℤ
  predicted_daily_avg : ℚ
  current_daily_avg : ℚ
  historical_daily_avg : ℚ
  trend : String
  trend_slope : ℚ
  percent_change : ℚ
  confidence : ℚ
  days_ahead : ℕ
  data_points : ℕ
  deriving DecidableEq

/-- Line 676: `variance = sum((c - overall_avg) ** 2 for c in counts) / len(counts)
if counts else 0`. -/
def boroughVariance (counts : List ℚ) : ℚ :=
  if counts.isEmpty then 0
  else (counts.map fun c => (c - listMean counts) ^ 2).sum / (counts.length : ℚ)

/-- Lines 599-729: the per-borough record.  `sqrtFn` stands for the real
square root applied to the variance (line 677); the day-of-week averages of
lines 637-649 are computed by the source but never used, and are omitted. -/
def mkBoroughPrediction (sqrtFn : ℚ → ℚ) (borough : String) (counts : List ℚ)
    (days_ahead : ℕ) : BoroughPrediction :=
  let recent_avg := listMean (lastN 30 counts)
  let overall_avg := listMean counts
  let slope := trendSlope counts
  let std_dev := sqrtFn (boroughVariance counts)
  { borough := borough,
    predicted_complaints := predictedTotal recent_avg slope days_ahead,
    predicted_daily_avg := round1 (boundedDailyRate recent_avg slope days_ahead),
    current_daily_avg := round1 recent_avg,
    historical_daily_avg := round1 overall_avg,
    trend := trendDirection slope,
    trend_slope := round2 slope,
    percent_change :=
      round1 (if 0 < overall_avg then (recent_avg - overall_avg) / overall_avg * 100 else 0),
    confidence := round1 (boroughConfidence counts.length std_dev overall_avg),
    days_ahead := days_ahead,
    data_points := counts.length }

/-- Lines 589-597 and 715-729: iterate over the grouped borough data,
skipping empty or `'UNSPECIFIED'` borough names (case-insensitively) and
boroughs with fewer than three data points; every surviving borough yields a
record.  The final `sort` only reorders the records and is omitted. -/
def predictBoroughComplaints (sqrtFn : ℚ → ℚ) (borough_data : List (String × List ℚ))
    (days_ahead : ℕ) : List BoroughPrediction :=
  (borough_data.filter fun bd =>
      !(bd.1 == "" || pyUpper bd.1 == "UNSPECIFIED") && decide (3 ≤ bd.2.length)).map
    fun bd => mkBoroughPrediction sqrtFn bd.1 bd.2 days_ahead

/-! ## Specification-side definitions

These restate, in the words of the specification, the quantities the claims
describe; the theorems below compare them with the code-side definitions. -/

/-- Spec: the arithmetic mean of a series of counts. -/
def specMean (l : List ℚ) : ℚ := l.sum / (l.length : ℚ)

/-- Spec: the ordinary least-squares regression slope of the counts `ys`
against the integer index `0..n-1`: `(n·Σxy − Σx·Σy) / (n·Σx² − (Σx)²)`,
zero when fewer than two points or the denominator vanishes. -/
def specOLSSlope (ys : List ℚ) : ℚ :=
  if ys.length < 2 ∨
      (ys.length : ℚ) * (∑ i in Finset.range ys.length, ((i : ℚ)) ^ 2) -
        (∑ i in Finset.range ys.length, (i : ℚ)) ^ 2 = 0 then 0
  else
    ((ys.length : ℚ) * (∑ i in Finset.range ys.length, (i : ℚ) * ys.getD i 0) -
        (∑ i in Finset.range ys.length, (i : ℚ)) * (∑ i in Finset.range ys.length, ys.getD i 0)) /
      ((ys.length : ℚ) * (∑ i in Finset.range ys.length, ((i : ℚ)) ^ 2) -
        (∑ i in Finset.range ys.length, (i : ℚ)) ^ 2)

/-- Spec: `bounded_daily_rate = max(recent_avg*0.1,
recent_avg + clamp(slope*(H/2), -recent_avg*0.5, +∞))`. -/
def specBoundedDailyRate (recent_avg slope : ℚ) (horizon : ℕ) : ℚ :=
  max (recent_avg * (1/10)) (recent_avg + max (-recent_avg * (1/2)) (slope * ((horizon : ℚ) / 2)))

/-- Spec: base confidence 85 for `n ≥ 30`, 70 for `14 ≤ n < 30`,
50 for `7 ≤ n < 14`, else 30. -/
def specBaseConfidence (n : ℕ) : ℚ :=
  if 30 ≤ n then 85
  else if 14 ≤ n ∧ n < 30 then 70
  else if 7 ≤ n ∧ n < 14 then 50
  else 30

/-- Spec: the forecast confidence: the base is multiplied by
`1 - min(0.3, (cv - 0.5) * 0.5)` when the coefficient of variation
`cv = s/m` exceeds `0.5` (with `s > 0` and `m > 0`), and the result is
clamped to `[30, 95]`. -/
def specConfidence (n : ℕ) (s m : ℚ) : ℚ :=
  max 30 (min 95
    (if 0 < s ∧ 0 < m ∧ 1/2 < s / m then
      specBaseConfidence n * (1 - min (3/10) ((s / m - 1/2) * (1/2)))
    else specBaseConfidence n))

/-! ## Helper lemmas -/

theorem mem_allCategories (c : Category) : c ∈ allCategories := by
  cases c <;> decide

theorem toLower_ws {c : Char} (h : c.isWhitespace = true) :
    (Char.toLower c).isWhitespace = true := by
  simp only [Char.isWhitespace, Bool.or_eq_true, decide_eq_true_eq] at h
  rcases h with ((h | h) | h) | h <;> subst h <;> decide

theorem mem_lowerChars_ws {s : List Char} (h : ∀ c ∈ s, c.isWhitespace = true) :
    ∀ c ∈ lowerChars s, c.isWhitespace = true := by
  intro c hc
  simp only [lowerChars, List.mem_map] at hc
  obtain ⟨a, ha, rfl⟩ := hc
  exact toLower_ws (h a ha)

theorem stripChars_ws {s : List Char} (h : ∀ c ∈ s, c.isWhitespace = true) :
    stripChars s = [] := by
  unfold stripChars
  rw [List.dropWhile_eq_nil_iff.mpr h]
  simp

theorem startsWithChars_ws_false :
    ∀ {needle hay : List Char}, (∃ c ∈ needle, c.isWhitespace = false) →
      (∀ c ∈ hay, c.isWhitespace = true) → startsWithChars needle hay = false := by
  intro needle
  induction needle with
  | nil => intro hay hex _; obtain ⟨c, hc, _⟩ := hex; exact absurd hc (List.not_mem_nil c)
  | cons c cs ih =>
      intro hay hex hws
      cases hay with
      | nil => rfl
      | cons h hs =>
          obtain ⟨x, hx, hxw⟩ := hex
          rcases List.mem_cons.mp hx with rfl | hxs
          · have hch : (x == h) = false := by
              rw [beq_eq_false_iff_ne]
              rintro rfl
              rw [hws x (List.mem_cons_self x hs)] at hxw
              exact absurd hxw (by decide)
            simp [startsWithChars, hch]
          · cases hch : c == h with
            | false => simp [startsWithChars, hch]
            | true =>
                have htail : startsWithChars cs hs = false :=
                  ih ⟨x, hxs, hxw⟩ fun d hd => hws d (List.mem_cons_of_mem h hd)
                simp [startsWithChars, hch, htail]

theorem containsChars_ws_false {needle : List Char} :
    ∀ {hay : List Char}, (∃ c ∈ needle, c.isWhitespace = false) →
      (∀ c ∈ hay, c.isWhitespace = true) → containsChars needle hay = false := by
  intro hay
  induction hay with
  | nil =>
      intro hex _
      obtain ⟨c, hc, _⟩ := hex
      cases needle with
      | nil => exact absurd hc (List.not_mem_nil c)
      | cons a t => rfl
  | cons h t ih =>
      intro hex hws
      have h1 : startsWithChars needle (h :: t) = false := startsWithChars_ws_false hex hws
      have h2 : containsChars needle t = false :=
        ih hex fun d hd => hws d (List.mem_cons_of_mem h hd)
      simp [containsChars, h1, h2]

theorem strIn_ws_false {hay : List Char} (hws : ∀ c ∈ hay, c.isWhitespace = true)
    (k : String) (hk : (k.data.any fun c => !c.isWhitespace) = true) :
    strIn k hay = false := by
  rw [List.any_eq_true] at hk
  obtain ⟨c, hc, hcw⟩ := hk
  exact containsChars_ws_false ⟨c, hc, by simpa using hcw⟩ hws

theorem anyIn_ws_false {hay : List Char} (hws : ∀ c ∈ hay, c.isWhitespace = true)
    (ks : List String) (hk : (ks.all fun k => k.data.any fun c => !c.isWhitespace) = true) :
    anyIn ks hay = false := by
  rw [anyIn, List.any_eq_false]
  intro k hkmem
  rw [Bool.not_eq_true]
  exact strIn_ws_false hws k (List.all_eq_true.mp hk k hkmem)

theorem classifyFrom_ws {dl cb : List Char}
    (hcb : ∀ c ∈ cb, c.isWhitespace = true) : classifyFrom [] dl cb = Category.other := by
  unfold classifyFrom
  rw [strIn_ws_false hcb "unsanitary pigeon condition" (by decide),
      strIn_ws_false hcb "unsanitary animal facility" (by decide),
      strIn_ws_false hcb "air quality" (by decide),
      strIn_ws_false hcb "unsanitary condition" (by decide),
      strIn_ws_false hcb "dirty conditions" (by decide),
      strIn_ws_false hcb "sewer" (by decide),
      strIn_ws_false hcb "water quality" (by decide),
      strIn_ws_false hcb "missed collection" (by decide),
      strIn_ws_false hcb "missed collection (all materials)" (by decide),
      strIn_ws_false hcb "hazardous materials" (by decide),
      strIn_ws_false hcb "lead" (by decide),
      strIn_ws_false hcb "sweeping" (by decide),
      strIn_ws_false hcb "mosquitoes" (by decide),
      strIn_ws_false hcb "mold" (by decide),
      strIn_ws_false hcb "snow" (by decide),
      show strIn "residential disposal complaint" ([] : List Char) = false from by decide,
      show strIn "dumpster complaint" ([] : List Char) = false from by decide,
      show strIn "dead animal" ([] : List Char) = false from by decide,
      show strIn "street sweeping complaint" ([] : List Char) = false from by decide,
      show strIn "sanitation worker" ([] : List Char) = false from by decide,
      show strIn "vehicle complaint" ([] : List Char) = false from by decide,
      show strIn "derelict vehicle" ([] : List Char) = false from by decide,
      show strIn "illegal posting" ([] : List Char) = false from by decide,
      anyIn_ws_false hcb ["illegal dumping", "dumping", "illegal dump", "dumped", "chronic dumping"] (by decide),
      anyIn_ws_false hcb ["missed collection", "missed pickup", "missed trash", "collection missed", "pickup missed", "no pickup"] (by decide),
      anyIn_ws_false hcb ["overflow", "overflowing", "over flowing", "bin full", "container full", "overflowing dumpster", "overflowing basket"] (by decide),
      anyIn_ws_false hcb ["rodent", "rat", "rats", "mouse", "mice", "rodent activity", "rodent sighting"] (by decide),
      anyIn_ws_false hcb ["dirty condition", "sanitation condition", "unsanitary", "dirty area", "filthy", "unsanitary condition"] (by decide),
      anyIn_ws_false hcb ["trash", "garbage", "refuse", "waste", "debris", "rubbish", "solid waste", "not secure", "not separated"] (by decide),
      anyIn_ws_false hcb ["litter basket", "litter", "basket", "litter bin", "street basket", "replacement basket", "new basket"] (by decide),
      anyIn_ws_false hcb ["damaged container", "broken container", "container damaged", "damaged bin", "broken bin"] (by decide),
      anyIn_ws_false hcb ["vendor", "enforcement", "street vendor", "vendor violation", "food vendor", "non-food vendor"] (by decide),
      anyIn_ws_false hcb ["obstruction", "blocking", "blocked", "obstructing", "access blocked"] (by decide),
      anyIn_ws_false hcb ["graffiti", "vandalism", "spray paint"] (by decide),
      anyIn_ws_false hcb ["street condition", "sidewalk"] (by decide)]
  simp

theorem le_pyRoundInt {n : ℤ} {q : ℚ} (h : (n : ℚ) ≤ q) : n ≤ pyRoundInt q := by
  have hf : n ≤ ⌊q⌋ := Int.le_floor.mpr h
  unfold pyRoundInt
  split_ifs <;> omega

theorem pyRoundInt_le {n : ℤ} {q : ℚ} (h : q ≤ (n : ℚ)) : pyRoundInt q ≤ n := by
  have hf : ⌊q⌋ ≤ n := by
    have h2 := Int.floor_le_floor h
    rwa [Int.floor_intCast] at h2
  have hstep : (1 : ℚ)/2 ≤ q - ⌊q⌋ → ⌊q⌋ + 1 ≤ n := by
    intro hr
    rcases lt_or_eq_of_le hf with hl | he
    · omega
    · exfalso
      have hc : ((⌊q⌋ : ℤ) : ℚ) = (n : ℚ) := by rw [he]
      linarith
  unfold pyRoundInt
  split_ifs with h1 h2 h3
  · exact hf
  · exact hstep (le_of_not_lt h1)
  · exact hf
  · exact hstep (le_of_not_lt h1)

theorem round1_bounds {lo hi : ℤ} {q : ℚ} (h1 : (lo : ℚ) ≤ q) (h2 : q ≤ (hi : ℚ)) :
    (lo : ℚ) ≤ round1 q ∧ round1 q ≤ (hi : ℚ) := by
  constructor
  · rw [round1, le_div_iff₀ (by norm_num : (0:ℚ) < 10)]
    have h3 : (lo * 10 : ℤ) ≤ pyRoundInt (q * 10) := le_pyRoundInt (by push_cast; linarith)
    exact_mod_cast h3
  · rw [round1, div_le_iff₀ (by norm_num : (0:ℚ) < 10)]
    have h3 : pyRoundInt (q * 10) ≤ (hi * 10 : ℤ) := pyRoundInt_le (by push_cast; linarith)
    exact_mod_cast h3

theorem sum_getD_eq (l : List ℚ) : (∑ i in Finset.range l.length, l.getD i 0) = l.sum := by
  induction l with
  | nil => simp
  | cons a t ih =>
      rw [List.length_cons, Finset.sum_range_succ']
      simp only [List.getD_cons_succ, List.getD_cons_zero]
      rw [ih, List.sum_cons, add_comm]

theorem sumX_eq (n : ℕ) : sumX n = ∑ i in Finset.range n, (i : ℚ) := by
  induction n with
  | zero => simp [sumX]
  | succ k ih =>
      rw [sumX, List.range_succ, List.map_append, List.sum_append, Finset.sum_range_succ,
        ← sumX, ih]
      simp

theorem sumX2_eq (n : ℕ) : sumX2 n = ∑ i in Finset.range n, ((i : ℚ)) ^ 2 := by
  induction n with
  | zero => simp [sumX2]
  | succ k ih =>
      rw [sumX2, List.range_succ, List.map_append, List.sum_append, Finset.sum_range_succ,
        ← sumX2, ih]
      simp [pow_two]

theorem sumXY_aux (ys : List ℚ) :
    ∀ m : ℕ, (((List.range' m ys.length).zip ys).map fun p => (p.1 : ℚ) * p.2).sum =
      ∑ i in Finset.range ys.length, ((m + i : ℕ) : ℚ) * ys.getD i 0 := by
  induction ys with
  | nil => intro m; simp
  | cons a t ih =>
      intro m
      rw [List.length_cons, List.range'_succ, List.zip_cons_cons, List.map_cons, List.sum_cons,
        Finset.sum_range_succ']
      simp only [List.getD_cons_succ, List.getD_cons_zero]
      rw [ih (m + 1)]
      have hc : ∀ i : ℕ, ((m + 1 + i : ℕ) : ℚ) = ((m + (i + 1) : ℕ) : ℚ) := by
        intro i
        norm_cast
        omega
      rw [Finset.sum_congr rfl fun i _ => by rw [hc i]]
      push_cast
      ring

theorem sumXY_eq (ys : List ℚ) :
    sumXY ys = ∑ i in Finset.range ys.length, (i : ℚ) * ys.getD i 0 := by
  rw [sumXY, List.range_eq_range', sumXY_aux ys 0]
  exact Finset.sum_congr rfl fun i _ => by push_cast; ring

theorem listMean_eq_specMean (l : List ℚ) : listMean l = specMean l := by
  cases l with
  | nil => simp [listMean, specMean]
  | cons a t => rfl

theorem lastN_min (k : ℕ) (l : List ℚ) : lastN (min k l.length) l = lastN k l := by
  unfold lastN
  congr 1
  omega

theorem trendSlope_eq_spec (counts : List ℚ) :
    trendSlope counts = specOLSSlope (lastN 60 counts) := by
  have e1 := sumX_eq (lastN 60 counts).length
  have e2 := sumX2_eq (lastN 60 counts).length
  have e3 := sumXY_eq (lastN 60 counts)
  have e4 := sum_getD_eq (lastN 60 counts)
  unfold trendSlope specOLSSlope
  rw [e1, e2, e3, e4, pow_two (∑ i in Finset.range (lastN 60 counts).length, (i : ℚ))]
  by_cases h1 : 1 < (lastN 60 counts).length
  · by_cases h2 :
        ((lastN 60 counts).length : ℚ) *
            (∑ i in Finset.range (lastN 60 counts).length, ((i : ℚ)) ^ 2) -
          (∑ i in Finset.range (lastN 60 counts).length, (i : ℚ)) *
            (∑ i in Finset.range (lastN 60 counts).length, (i : ℚ)) = 0
    · rw [if_pos h1, if_neg (not_not_intro h2), if_pos (Or.inr h2)]
    · rw [if_pos h1, if_pos h2, if_neg]
      push_neg
      exact ⟨by omega, h2⟩
  · rw [if_neg h1, if_pos (Or.inl (by omega))]

theorem baseConfidence_eq_spec (n : ℕ) : baseConfidence n = specBaseConfidence n := by
  unfold baseConfidence specBaseConfidence
  split_ifs <;> first | rfl | (exfalso; omega)

theorem boroughConfidence_eq_spec (n : ℕ) (s m : ℚ) :
    boroughConfidence n s m = specConfidence n s m := by
  unfold boroughConfidence specConfidence
  rw [baseConfidence_eq_spec]
  by_cases h1 : 0 < s ∧ 0 < m
  · by_cases h2 : (1:ℚ)/2 < s / m
    · rw [if_pos h1, if_pos h2, if_pos ⟨h1.1, h1.2, h2⟩]
    · rw [if_pos h1, if_neg h2, if_neg fun h => h2 h.2.2]
  · rw [if_neg h1, if_neg fun h => h1 ⟨h.1, h.2.1⟩]

theorem boroughConfidence_bds (n : ℕ) (s m : ℚ) :
    30 ≤ boroughConfidence n s m ∧ boroughConfidence n s m ≤ 95 := by
  unfold boroughConfidence
  exact ⟨le_max_left _ _, max_le (by norm_num) (min_le_left _ _)⟩

theorem hotspotConfidence_bds (days_active : ℕ) :
    0 ≤ hotspotConfidence days_active ∧ hotspotConfidence days_active ≤ 100 := by
  unfold hotspotConfidence
  constructor
  · apply le_min (by norm_num)
    positivity
  · exact min_le_left _ _

/-! ## Claim theorems -/

/-- Claim C2: for every key with recent average `recent_avg ≥ 0`, any finite
slope and horizon `H ≥ 0` days, the assembled prediction equals
`max(0, int(bounded_daily_rate * H))` with `bounded_daily_rate =
max(recent_avg*0.1, recent_avg + max(-recent_avg*0.5, slope*(H/2)))`; it is
therefore never negative, and for `recent_avg = 10`, `slope = -5`, `H = 10`
it is at least 10. -/
theorem c2_prediction_assembly (recent_avg slope : ℚ) (H : ℕ) (h : 0 ≤ recent_avg) :
    predictedTotal recent_avg slope H =
      max 0 (pyInt (specBoundedDailyRate recent_avg slope H * (H : ℚ))) ∧
    0 ≤ predictedTotal recent_avg slope H ∧
    (10 : ℤ) ≤ predictedTotal 10 (-5) 10 := by
  refine ⟨rfl, le_max_left 0 _, ?_⟩
  with_unfolding_all decide

/-- Witness for C2 at `recent_avg = 10`, `slope = -5`, `H = 10`. -/
theorem c2_witness :
    predictedTotal 10 (-5) 10 =
      max 0 (pyInt (specBoundedDailyRate 10 (-5) 10 * ((10 : ℕ) : ℚ))) ∧
    0 ≤ predictedTotal 10 (-5) 10 ∧
    (10 : ℤ) ≤ predictedTotal 10 (-5) 10 :=
  c2_prediction_assembly 10 (-5) 10 (by norm_num)

/-- Claim C3: the overflow risk score is
`min(100, min(100, overflow*10) + max(0, 50 - collections*5))`, lies in
`[0, 100]`, the level label is `high` above 70, `medium` above 40, else
`low`, each with its fixed recommendation; `(0, 10)` scores 0 (`low`) and
`(15, 0)` scores 100 (`high`). -/
theorem c3_risk_score (o r : ℕ) :
    riskScore o r = min 100 (min 100 ((o : ℤ) * 10) + max 0 (50 - (r : ℤ) * 5)) ∧
    (0 ≤ riskScore o r ∧ riskScore o r ≤ 100) ∧
    riskLevel (riskScore o r) =
      (if 70 < riskScore o r then "high" else if 40 < riskScore o r then "medium" else "low") ∧
    riskRecommendation (riskScore o r) =
      (if 70 < riskScore o r then "Increase collection frequency"
       else if 40 < riskScore o r then "Monitor closely" else "Normal operations") ∧
    (riskScore 0 10 = 0 ∧ riskLevel (riskScore 0 10) = "low") ∧
    (riskScore 15 0 = 100 ∧ riskLevel (riskScore 15 0) = "high") := by
  refine ⟨rfl, ⟨?_, min_le_left _ _⟩, rfl, rfl, ?_, ?_⟩
  · apply le_min (by norm_num)
    have h1 : (0 : ℤ) ≤ overflowScore o := le_min (by norm_num) (by positivity)
    have h2 : (0 : ℤ) ≤ collectionScore r := le_max_left _ _
    exact add_nonneg h1 h2
  · exact ⟨by with_unfolding_all decide, by with_unfolding_all decide⟩
  · exact ⟨by with_unfolding_all decide, by with_unfolding_all decide⟩

/-- Claim C4: the borough forecast confidence is the base (85 for `n ≥ 30`,
70 for `14 ≤ n < 30`, 50 for `7 ≤ n < 14`, else 30), multiplied by
`1 - min(0.3, (cv - 0.5)*0.5)` when the coefficient of variation
`cv = std_dev/mean` exceeds 0.5 (with `std_dev > 0` and `mean > 0`), and
clamped to `[30, 95]`.  `std_dev` is the source's `variance ** 0.5`. -/
theorem c4_forecast_confidence (n : ℕ) (s m : ℚ) :
    boroughConfidence n s m = specConfidence n s m ∧
    30 ≤ boroughConfidence n s m ∧ boroughConfidence n s m ≤ 95 :=
  ⟨boroughConfidence_eq_spec n s m, (boroughConfidence_bds n s m).1,
    (boroughConfidence_bds n s m).2⟩

/-- Claim C5: for a non-empty chronologically ordered series, `recent_avg`
is the mean of the last `min(30, len)` counts, `historical_avg` is the mean
of all counts, and the slope is the OLS regression slope over the last
`min(60, len)` counts, zero when fewer than two points or the regression
denominator vanishes. -/
theorem c5_trend_estimator (counts : List ℚ) (h : counts ≠ []) :
    (estimateTrend counts).recent_avg = specMean (lastN (min 30 counts.length) counts) ∧
    (estimateTrend counts).historical_avg = specMean counts ∧
    (estimateTrend counts).slope = specOLSSlope (lastN (min 60 counts.length) counts) := by
  refine ⟨?_, listMean_eq_specMean counts, ?_⟩
  · rw [lastN_min]
    exact listMean_eq_specMean _
  · rw [lastN_min]
    exact trendSlope_eq_spec counts

/-- Witness for C5 on the series `[1, 2, 3]`. -/
theorem c5_witness :
    (estimateTrend [1, 2, 3]).slope =
      specOLSSlope (lastN (min 60 ([1, 2, 3] : List ℚ).length) [1, 2, 3]) :=
  (c5_trend_estimator [1, 2, 3] (by decide)).2.2

/-- Claim C6: `classify("Residential Disposal Complaint", "Storage Area issue")`
is `other` and `classify("", "overflowing dumpster")` is `overflow`; the
specific agency-code rules win over generic keyword rules (for
`("Dumpster Complaint", "broken bin")` the specific rule yields `trash_issue`
although the generic damaged-container keywords match the combined text),
and generic rules win over the catch-all (`("", "graffiti")` yields
`graffiti`, not `other`). -/
theorem c6_classifier_cases :
    classify "Residential Disposal Complaint" "Storage Area issue" = Category.other ∧
    classify "" "overflowing dumpster" = Category.overflow ∧
    (classify "Dumpster Complaint" "broken bin" = Category.trash_issue ∧
      anyIn ["damaged container", "broken container", "container damaged", "damaged bin", "broken bin"]
        (lowerChars (lowerChars (stripChars ("Dumpster Complaint").data) ++
          ' ' :: lowerChars ("broken bin").data)) = true) ∧
    classify "" "graffiti" = Category.graffiti := by
  exact ⟨by decide, by decide, ⟨by decide, by decide⟩, by decide⟩

/-- Claim C7: classification is total: for every pair of input strings it
returns exactly one category of the fixed enumeration (and, being a pure
function, cannot raise), and for whitespace-only inputs no rule matches and
the fallback `other` is returned. -/
theorem c7_classifier_total (complaint_type descriptor : String) :
    classify complaint_type descriptor ∈ allCategories ∧
    ((∀ c ∈ complaint_type.data, c.isWhitespace = true) →
      (∀ c ∈ descriptor.data, c.isWhitespace = true) →
      classify complaint_type descriptor = Category.other) := by
  refine ⟨mem_allCategories _, ?_⟩
  intro h1 h2
  unfold classify
  rw [stripChars_ws h1, show lowerChars ([] : List Char) = [] from rfl, List.nil_append]
  refine classifyFrom_ws (mem_lowerChars_ws ?_)
  intro c hc
  rcases List.mem_cons.mp hc with rfl | hcs
  · decide
  · exact mem_lowerChars_ws h2 c hcs

/-- Witness for C7 on the whitespace-only inputs `" "` and a tab. -/
theorem c7_witness :
    classify " " "\t" ∈ allCategories ∧ classify " " "\t" = Category.other :=
  ⟨(c7_classifier_total " " "\t").1, (c7_classifier_total " " "\t").2 (by decide) (by decide)⟩

/-- Claim C8: each tabulated complaint type's seasonal factor is its peak
factor when the target month is a peak month (snow: months 12, 1, 2 with
factor 3.0), the peak factor times 0.8 when the current month is a peak
month but the target is not, and 1.0 otherwise (also for untabulated
types); borough/general forecasts instead multiply predicted requests by
1.1 when the current month is in Dec-Feb, 1.15 in Jun-Aug, else 1.0. -/
theorem c8_seasonal_factors (tm cm : ℕ) (name : String)
    (hname : seasonal_patterns.find? (fun p => p.1 == name) = none)
    (patterns : List HotspotPattern) (H cm2 : ℕ) :
    categorySeasonalFactor "snow" tm cm =
      (if tm ∈ [12, 1, 2] then (3 : ℚ) else if cm ∈ [12, 1, 2] then 3 * (4/5) else 1) ∧
    categorySeasonalFactor "mosquitoes" tm cm =
      (if tm ∈ [6, 7, 8] then (5/2 : ℚ) else if cm ∈ [6, 7, 8] then 5/2 * (4/5) else 1) ∧
    categorySeasonalFactor "mold" tm cm =
      (if tm ∈ [3, 4, 5] then (2 : ℚ) else if cm ∈ [3, 4, 5] then 2 * (4/5) else 1) ∧
    categorySeasonalFactor "air_quality" tm cm =
      (if tm ∈ [6, 7, 8] then (9/5 : ℚ) else if cm ∈ [6, 7, 8] then 9/5 * (4/5) else 1) ∧
    categorySeasonalFactor "overflow" tm cm =
      (if tm ∈ [11, 12] then (3/2 : ℚ) else if cm ∈ [11, 12] then 3/2 * (4/5) else 1) ∧
    categorySeasonalFactor "rodent" tm cm =
      (if tm ∈ [9, 10, 11] then (13/10 : ℚ) else if cm ∈ [9, 10, 11] then 13/10 * (4/5) else 1) ∧
    categorySeasonalFactor name tm cm = 1 ∧
    (predictHotspots patterns H cm2).map (fun r => r.predicted_requests) =
      patterns.map (fun p =>
        pyInt ((pyInt ((p.total_requests : ℚ) / 90 * (H : ℚ)) : ℚ) * hotspotSeasonalFactor cm2)) ∧
    hotspotSeasonalFactor cm =
      (if cm ∈ [12, 1, 2] then (11/10 : ℚ) else if cm ∈ [6, 7, 8] then 23/20 else 1) := by
  refine ⟨rfl, rfl, rfl, rfl, rfl, rfl, ?_, ?_, rfl⟩
  · rw [categorySeasonalFactor, hname]
  · rw [predictHotspots, List.map_map]
    rfl

/-- Witness for C8: a complaint type absent from the seasonal table gets
factor 1. -/
theorem c8_witness : categorySeasonalFactor "zzz" 1 7 = 1 :=
  (c8_seasonal_factors 1 7 "zzz" (by decide) [] 7 5).2.2.2.2.2.2.1

/-- Counterexample to claim C9: `'urgent'` appears (case-insensitively) in
the input text — in the descriptor `"urgent cleanup"` — yet the computed
priority is `normal`, not `urgent`: the source checks `'urgent'` only in
the complaint type and `'emergency'` only in the descriptor. -/
theorem c9_counterexample :
    inferPriority (classify "" "urgent cleanup") "" "urgent cleanup" = Priority.normal ∧
    strIn "urgent" (lowerChars ("urgent cleanup").data) = true ∧
    Priority.normal ≠ Priority.urgent := by
  exact ⟨by decide, by decide, by decide⟩

/-- Claim C9 as amended: the priority is `urgent` exactly when `'urgent'`
appears in the stripped lowercased complaint type or `'emergency'` appears
in the lowercased descriptor; otherwise `high` exactly for the
high-severity categories (illegal_dumping, rodent, overflow,
hazardous_materials, mold, air_quality, water_quality); otherwise `normal`. -/
theorem c9_priority_amended (request_type : Category) (complaint_type descriptor : String) :
    inferPriority request_type complaint_type descriptor =
      (if strIn "urgent" (lowerChars (stripChars complaint_type.data)) ||
          strIn "emergency" (lowerChars descriptor.data) then Priority.urgent
       else if request_type ∈ highCategories then Priority.high
       else Priority.normal) := rfl

/-- Claim C10: the borough prediction output contains no record for a
borough whose name is empty or `'UNSPECIFIED'` (case-insensitively) and
none with fewer than three daily data points; such boroughs are silently
omitted from the record list (which carries no insufficient-data marker),
as on the concrete input where all three groups are filtered out. -/
theorem c10_borough_filter (sqrtFn : ℚ → ℚ) (borough_data : List (String × List ℚ)) (H : ℕ)
    (p : BoroughPrediction) (hp : p ∈ predictBoroughComplaints sqrtFn borough_data H) :
    (p.borough ≠ "" ∧ pyUpper p.borough ≠ "UNSPECIFIED" ∧ 3 ≤ p.data_points) ∧
    predictBoroughComplaints sqrtFn
      [("UNSPECIFIED", [1, 1, 1, 1]), ("", [1, 1, 1]), ("Queens", [4, 5])] H = [] := by
  constructor
  · rw [predictBoroughComplaints, List.mem_map] at hp
    obtain ⟨bd, hbd, rfl⟩ := hp
    rw [List.mem_filter] at hbd
    have hcond := hbd.2
    simp only [Bool.and_eq_true, Bool.not_eq_true', Bool.or_eq_false_iff,
      beq_eq_false_iff_ne, decide_eq_true_eq] at hcond
    exact ⟨hcond.1.1, hcond.1.2, hcond.2⟩
  · rfl

/-- Witness for C10: the borough `"Bronx"` with three data points produces a
record, and the filtered concrete input produces the empty list. -/
theorem c10_witness :
    ((mkBoroughPrediction (fun _ => 0) "Bronx" [1, 2, 3] 30).borough ≠ "" ∧
      pyUpper (mkBoroughPrediction (fun _ => 0) "Bronx" [1, 2, 3] 30).borough ≠ "UNSPECIFIED" ∧
      3 ≤ (mkBoroughPrediction (fun _ => 0) "Bronx" [1, 2, 3] 30).data_points) ∧
    predictBoroughComplaints (fun _ => 0)
      [("UNSPECIFIED", [1, 1, 1, 1]), ("", [1, 1, 1]), ("Queens", [4, 5])] 30 = [] :=
  c10_borough_filter (fun _ => 0) [("Bronx", [1, 2, 3])] 30 _ (by
    rw [show predictBoroughComplaints (fun _ => 0) [("Bronx", [1, 2, 3])] 30 =
        [mkBoroughPrediction (fun _ => 0) "Bronx" [1, 2, 3] 30] from rfl]
    exact List.mem_singleton.mpr rfl)

theorem mkBorough_confidence_bds (sqrtFn : ℚ → ℚ) (b : String) (counts : List ℚ) (H : ℕ) :
    30 ≤ (mkBoroughPrediction sqrtFn b counts H).confidence ∧
      (mkBoroughPrediction sqrtFn b counts H).confidence ≤ 95 := by
  have hb := boroughConfidence_bds counts.length (sqrtFn (boroughVariance counts)) (listMean counts)
  have h1 : ((30 : ℤ) : ℚ) ≤
      boroughConfidence counts.length (sqrtFn (boroughVariance counts)) (listMean counts) := by
    exact_mod_cast hb.1
  have h2 : boroughConfidence counts.length (sqrtFn (boroughVariance counts)) (listMean counts) ≤
      ((95 : ℤ) : ℚ) := by
    exact_mod_cast hb.2
  have hr := round1_bounds h1 h2
  constructor
  · have h3 := hr.1
    norm_num at h3
    exact h3
  · have h3 := hr.2
    norm_num at h3
    exact h3

/-- Counterexample to claim C1: a hotspot record whose grid cell was active
on a single weekday has confidence `round(min(100, (1/13)*100), 1) = 7.7`,
below 30; and a tonnage forecast built from sixty samples of one waste type
has confidence exactly 100.  Neither lies in `[30, 95]`. -/
theorem c1_counterexample :
    ((predictHotspots [⟨3, 1, 2⟩] 7 5).map (fun r => r.confidence) = [77/10] ∧
      ¬(30 ≤ (77/10 : ℚ))) ∧
    ((predictTonnageForecast [("residential", List.replicate 60 1)] 7).map
        (fun f => f.confidence) = some 100 ∧
      ¬((100 : ℚ) ≤ 95)) := by
  refine ⟨⟨?_, by norm_num⟩, ?_, by norm_num⟩
  · with_unfolding_all decide
  · with_unfolding_all decide

/-- Claim C1 as amended: only the borough prediction records carry a
confidence clamped to `[30, 95]`; the hotspot, tonnage-forecast and
complaint-type confidences are only capped above by `min(100, ·)`: they lie
in `[0, 100]` and can fall below 30 or reach exactly 100. -/
theorem c1_confidence_amended (sqrtFn : ℚ → ℚ) (borough_data : List (String × List ℚ))
    (H : ℕ) (p : BoroughPrediction) (hp : p ∈ predictBoroughComplaints sqrtFn borough_data H)
    (patterns : List HotspotPattern) (H2 cm : ℕ) (r : HotspotPrediction)
    (hr : r ∈ predictHotspots patterns H2 cm)
    (daily_totals : List (String × List ℚ)) (H3 : ℕ) (tf : TonnageForecast)
    (htf : predictTonnageForecast daily_totals H3 = some tf) (total : ℕ) :
    (30 ≤ p.confidence ∧ p.confidence ≤ 95) ∧
    (0 ≤ r.confidence ∧ r.confidence ≤ 100) ∧
    (0 ≤ tf.confidence ∧ tf.confidence ≤ 100) ∧
    (0 ≤ complaintTypeConfidence total ∧ complaintTypeConfidence total ≤ 100) := by
  refine ⟨?_, ?_, ?_, ?_⟩
  · rw [predictBoroughComplaints, List.mem_map] at hp
    obtain ⟨bd, _, rfl⟩ := hp
    exact mkBorough_confidence_bds sqrtFn bd.1 bd.2 H
  · rw [predictHotspots, List.mem_map] at hr
    obtain ⟨pat, _, rfl⟩ := hr
    have hc := hotspotConfidence_bds pat.days_active
    have h1 : ((0 : ℤ) : ℚ) ≤ hotspotConfidence pat.days_active := by exact_mod_cast hc.1
    have h2 : hotspotConfidence pat.days_active ≤ ((100 : ℤ) : ℚ) := by exact_mod_cast hc.2
    have h3 := round1_bounds h1 h2
    constructor
    · have h4 := h3.1
      norm_num at h4
      exact h4
    · have h4 := h3.2
      norm_num at h4
      exact h4
  · rcases daily_totals with _ | ⟨d, ds⟩
    · exact absurd htf (by simp [predictTonnageForecast])
    · unfold predictTonnageForecast at htf
      rw [Option.some_inj] at htf
      subst htf
      exact ⟨le_min (by norm_num) (by positivity), min_le_left _ _⟩
  · exact ⟨le_min (by norm_num) (by positivity), min_le_left _ _⟩

/-- Witness for the amended C1, at concrete outputs of all four operations. -/
theorem c1_witness :
    (30 ≤ (mkBoroughPrediction (fun _ => 0) "Bronx" [1, 2, 3] 30).confidence ∧
      (mkBoroughPrediction (fun _ => 0) "Bronx" [1, 2, 3] 30).confidence ≤ 95) ∧
    (0 ≤ (⟨0, 77/10, 2, 7⟩ : HotspotPrediction).confidence ∧
      (⟨0, 77/10, 2, 7⟩ : HotspotPrediction).confidence ≤ 100) ∧
    (0 ≤ (⟨[⟨"residential", 7, 1, 1⟩], 7, 5/3⟩ : TonnageForecast).confidence ∧
      (⟨[⟨"residential", 7, 1, 1⟩], 7, 5/3⟩ : TonnageForecast).confidence ≤ 100) ∧
    (0 ≤ complaintTypeConfidence 1 ∧ complaintTypeConfidence 1 ≤ 100) :=
  c1_confidence_amended (fun _ => 0) [("Bronx", [1, 2, 3])] 30 _
    (by
      rw [show predictBoroughComplaints (fun _ => 0) [("Bronx", [1, 2, 3])] 30 =
          [mkBoroughPrediction (fun _ => 0) "Bronx" [1, 2, 3] 30] from rfl]
      exact List.mem_singleton.mpr rfl)
    [⟨3, 1, 2⟩] 7 5 _ (by with_unfolding_all decide)
    [("residential", [1])] 7 _ (by with_unfolding_all decide) 1
